import Mathlib

/-!
Shallow embedding of the Trust Governance & Mediated Communication core
(`subagentic_ai` Python package) and verification of its specification.

Modelling conventions:
* Python `float` trust scores are embedded as `ℚ` (exact arithmetic).
* Wall-clock instants (`datetime.utcnow()`) are embedded as `Int`
  timestamps; a `timedelta` ttl is an `Int` duration (negative allowed,
  mirroring negative timedeltas).  Each top-level operation receives one
  `now` parameter standing for the clock readings taken during the call.
* Timestamped log entries keep their message text (including the
  `[FLA-id]` scope prefix of the event log); the strftime timestamp
  prefix is abstracted away, only the message content is modelled.
* Python dicts are association lists with unique keys, accessed through
  `dictGet` / `dictSet` / `dictDel`.
-/

namespace SubAgenticAI

/-- Embedding of `security_level.py`: ordered sensitivity tiers for outbound flow. -/
inductive SecurityLevel where
  | PUBLIC
  | INTERNAL
  | CONFIDENTIAL
  | SECRET
  | TOP_SECRET
deriving DecidableEq

/-- Python `f"{SecurityLevel.X}"` rendering of the enum member. -/
def SecurityLevel.pyStr : SecurityLevel → String
  | .PUBLIC => "SecurityLevel.PUBLIC"
  | .INTERNAL => "SecurityLevel.INTERNAL"
  | .CONFIDENTIAL => "SecurityLevel.CONFIDENTIAL"
  | .SECRET => "SecurityLevel.SECRET"
  | .TOP_SECRET => "SecurityLevel.TOP_SECRET"

/-- Embedding of `max(0.0, min(1.0, x))` — the clamping idiom used throughout the code. -/
def clamp01 (x : ℚ) : ℚ := max 0 (min 1 x)

/-- Embedding of `trust_level.py`, `TrustLevel` dataclass (fields as stored after
`__post_init__`, which clamps both components via `TrustLevel.make`). -/
structure TrustLevel where
  sender_trust : ℚ
  content_trust : ℚ
deriving DecidableEq

/-- Embedding of `TrustLevel.__init__` + `__post_init__`: both components clamped to [0,1]. -/
def TrustLevel.make (sender_trust content_trust : ℚ) : TrustLevel :=
  ⟨clamp01 sender_trust, clamp01 content_trust⟩

/-- Embedding of `TrustLevel.meets_threshold`: pointwise ≥ on both components. -/
def TrustLevel.meets_threshold (t threshold : TrustLevel) : Bool :=
  decide (threshold.sender_trust ≤ t.sender_trust) &&
    decide (threshold.content_trust ≤ t.content_trust)

/-- Embedding of `trust_broker.py`, `ITrustBroker` interface: an evaluator is a record of
its (pure) evaluation capabilities. -/
structure ITrustBroker where
  broker_id : String
  name : String
  evaluate_sender_trust : String → ℚ
  evaluate_content_trust : String → ℚ
  is_flagged : String → String → Bool

/-- Embedding of `statistics.mean` (total here: returns 0 on `[]`; the code only takes
means of sequences of length ≥ the minimum broker agreement ≥ 2). -/
def mean (xs : List ℚ) : ℚ := xs.sum / xs.length

/-- Embedding of `trust_profile.py`, `TrustProfile` dataclass (fields as stored). -/
structure TrustProfile where
  security_level : SecurityLevel
  required_trust_threshold : TrustLevel
  trust_brokers : List ITrustBroker
  minimum_broker_agreement : ℕ
  agreement_tolerance : ℚ

/-- Embedding of `TrustProfile.__post_init__`: floor the minimum agreement at 2 and
clamp the tolerance to [0,1]. -/
def TrustProfile.post_init (p : TrustProfile) : TrustProfile :=
  { p with
    minimum_broker_agreement := max 2 p.minimum_broker_agreement
    agreement_tolerance := clamp01 p.agreement_tolerance }

/-- Embedding of `TrustProfile._has_independent_agreement`: at least
`minimum_broker_agreement` evaluations lie within `agreement_tolerance`
of the arithmetic mean. -/
def TrustProfile.has_independent_agreement (p : TrustProfile) (evaluations : List ℚ) : Bool :=
  if evaluations.length < p.minimum_broker_agreement then false
  else
    decide (p.minimum_broker_agreement ≤
      evaluations.countP (fun e => decide (|e - mean evaluations| ≤ p.agreement_tolerance)))

/-- The broker loop of `TrustProfile.validate_inbound`: queries each broker
in order; an early flagged check aborts (`none`), otherwise the two score
lists are accumulated. -/
def validateLoop (sender_id content : String) :
    List ITrustBroker → List ℚ → List ℚ → Option (List ℚ × List ℚ)
  | [], sender_trusts, content_trusts => some (sender_trusts, content_trusts)
  | broker :: rest, sender_trusts, content_trusts =>
    if broker.is_flagged sender_id content then none
    else
      validateLoop sender_id content rest
        (sender_trusts ++ [broker.evaluate_sender_trust sender_id])
        (content_trusts ++ [broker.evaluate_content_trust content])

/-- Embedding of `TrustProfile.validate_inbound`. -/
def TrustProfile.validate_inbound (p : TrustProfile) (sender_id content : String) : Bool :=
  if p.trust_brokers.length < p.minimum_broker_agreement then false
  else
    match validateLoop sender_id content p.trust_brokers [] [] with
    | none => false
    | some (sender_trusts, content_trusts) =>
      if !(p.has_independent_agreement sender_trusts) then false
      else if !(p.has_independent_agreement content_trusts) then false
      else
        let avg_sender_trust := mean sender_trusts
        let avg_content_trust := mean content_trusts
        let evaluated_trust := TrustLevel.make avg_sender_trust avg_content_trust
        evaluated_trust.meets_threshold p.required_trust_threshold

/-- Embedding of `mission_status.py`: lifecycle status of a SubAgent mission. -/
inductive MissionStatus where
  | CREATED
  | ACTIVE
  | PAUSED
  | COMPLETED
  | FAILED
  | RETIRED
deriving DecidableEq

/-- Python `f"{MissionStatus.X}"` rendering of the enum member, as used in
the error and log messages of `sub_agent.py`. -/
def MissionStatus.pyStr : MissionStatus → String
  | .CREATED => "MissionStatus.CREATED"
  | .ACTIVE => "MissionStatus.ACTIVE"
  | .PAUSED => "MissionStatus.PAUSED"
  | .COMPLETED => "MissionStatus.COMPLETED"
  | .FAILED => "MissionStatus.FAILED"
  | .RETIRED => "MissionStatus.RETIRED"

/-- Embedding of `sub_agent.py`, `SubAgent` mutable entity as a state record.  The
`_local_state` dict maps string keys to the stored content strings. -/
structure SubAgent where
  id : String
  domain : String
  trust_profile : TrustProfile
  status : MissionStatus
  local_state : List (String × String)
  activity_log : List String

/-- Embedding of `SubAgent._log_activity` (timestamp prefix abstracted away). -/
def SubAgent.log_activity (a : SubAgent) (activity : String) : SubAgent :=
  { a with activity_log := a.activity_log ++ [activity] }

/-- Python dict `d[k] = v`: replace in place if the key exists, else append. -/
def insertAssoc : List (String × String) → String → String → List (String × String)
  | [], k, v => [(k, v)]
  | (k', v') :: rest, k, v =>
    if k' = k then (k', v) :: rest else (k', v') :: insertAssoc rest k v

/-- Embedding of `SubAgent.start_mission`: legal only from CREATED, moves to ACTIVE. -/
def SubAgent.start_mission (a : SubAgent) : Except String SubAgent :=
  if a.status ≠ MissionStatus.CREATED then
    .error ("Cannot start mission from status: " ++ a.status.pyStr)
  else
    .ok (SubAgent.log_activity { a with status := .ACTIVE } "Mission started")

/-- Embedding of `SubAgent.process_task`: legal only from ACTIVE. -/
def SubAgent.process_task (a : SubAgent) (task : String) : Except String (String × SubAgent) :=
  if a.status ≠ MissionStatus.ACTIVE then
    .error ("Cannot process task in status: " ++ a.status.pyStr)
  else
    let a₁ := SubAgent.log_activity a ("Processing task: " ++ task)
    let result := "Processed: " ++ task ++ " in domain: " ++ a.domain
    .ok (result, SubAgent.log_activity a₁ ("Task completed: " ++ result))

/-- Embedding of `SubAgent.receive_information`: rejects (false) when not ACTIVE, else
validates through the trust profile; on acceptance stores the content in
local state keyed by the timestamp. -/
def SubAgent.receive_information (a : SubAgent) (sender_id information : String)
    (now : Int) : SubAgent × Bool :=
  if a.status ≠ MissionStatus.ACTIVE then
    (SubAgent.log_activity a ("Rejected inbound information - status: " ++ a.status.pyStr), false)
  else if a.trust_profile.validate_inbound sender_id information then
    let a₁ := { a with
      local_state := insertAssoc a.local_state ("received_" ++ toString now) information }
    (SubAgent.log_activity a₁ ("Accepted information from: " ++ sender_id), true)
  else
    (SubAgent.log_activity a
      ("Rejected information from: " ++ sender_id ++ " - trust validation failed"), false)

/-- Embedding of `SubAgent.send_information`: false when not ACTIVE, else logs and
succeeds (security-level gating is declared but not enforced). -/
def SubAgent.send_information (a : SubAgent) (recipient_id information : String) :
    SubAgent × Bool :=
  if a.status ≠ MissionStatus.ACTIVE then
    (SubAgent.log_activity a ("Cannot send information - status: " ++ a.status.pyStr), false)
  else
    (SubAgent.log_activity a
      ("Sending information to: " ++ recipient_id ++
        " (SL: " ++ a.trust_profile.security_level.pyStr ++ ")"), true)

/-- Embedding of `SubAgent.complete_mission`: legal from ACTIVE or PAUSED. -/
def SubAgent.complete_mission (a : SubAgent) : Except String SubAgent :=
  if a.status ≠ MissionStatus.ACTIVE ∧ a.status ≠ MissionStatus.PAUSED then
    .error ("Cannot complete mission from status: " ++ a.status.pyStr)
  else
    .ok (SubAgent.log_activity { a with status := .COMPLETED } "Mission completed")

/-- Embedding of `SubAgent.retire`: idempotent; moves to RETIRED and clears local state. -/
def SubAgent.retire (a : SubAgent) : SubAgent :=
  if a.status = MissionStatus.RETIRED then a
  else
    { SubAgent.log_activity { a with status := .RETIRED } "SubAgent retired" with
      local_state := [] }

/-- Embedding of `communication_authorization.py`, `CommunicationAuthorization` record. -/
structure CommunicationAuthorization where
  from_agent_id : String
  to_agent_id : String
  is_bidirectional : Bool
  allowed_data_scopes : List String
  created_at : Int
  expires_at : Option Int
deriving DecidableEq

/-- Embedding of `CommunicationAuthorization.create`.  Mirrors the Python truthiness
tests: `expires_at = created_at + ttl if ttl else None` treats both a
missing ttl and a **zero** ttl (`timedelta(0)` is falsy) as "no expiry";
an empty scope tuple is likewise replaced by the wildcard. -/
def CommunicationAuthorization.create (from_agent_id to_agent_id : String)
    (is_bidirectional : Bool) (allowed_data_scopes : Option (List String))
    (ttl : Option Int) (now : Int) : CommunicationAuthorization :=
  let expires_at : Option Int :=
    match ttl with
    | none => none
    | some t => if t = 0 then none else some (now + t)
  let scopes : List String :=
    match allowed_data_scopes with
    | none => ["*"]
    | some s => if s = [] then ["*"] else s
  { from_agent_id := from_agent_id
    to_agent_id := to_agent_id
    is_bidirectional := is_bidirectional
    allowed_data_scopes := scopes
    created_at := now
    expires_at := expires_at }

/-- Embedding of `CommunicationAuthorization.is_expired`: an expiry is set and is
strictly in the past (`utcnow() > expires_at`). -/
def CommunicationAuthorization.is_expired (g : CommunicationAuthorization) (now : Int) : Bool :=
  match g.expires_at with
  | none => false
  | some e => decide (e < now)

/-- Embedding of `CommunicationAuthorization.is_authorized`. -/
def CommunicationAuthorization.is_authorized (g : CommunicationAuthorization)
    (from_id to_id : String) (now : Int) : Bool :=
  if g.is_expired now then false
  else if g.from_agent_id = from_id ∧ g.to_agent_id = to_id then true
  else if g.is_bidirectional = true ∧ g.from_agent_id = to_id ∧ g.to_agent_id = from_id then true
  else false

/-- Python dict lookup `d.get(k)` over the association list. -/
def dictGet : List (String × SubAgent) → String → Option SubAgent
  | [], _ => none
  | (k', v) :: rest, k => if k' = k then some v else dictGet rest k

/-- Python dict write `d[k] = v` over the association list. -/
def dictSet : List (String × SubAgent) → String → SubAgent → List (String × SubAgent)
  | [], k, v => [(k, v)]
  | (k', v') :: rest, k, v =>
    if k' = k then (k', v) :: rest else (k', v') :: dictSet rest k v

/-- Python dict `del d[k]` (keys are unique, so dropping every entry with
the key coincides with deleting the single entry). -/
def dictDel (m : List (String × SubAgent)) (k : String) : List (String × SubAgent) :=
  m.filter (fun kv => decide (kv.1 ≠ k))

/-- Embedding of `front_line_agent.py`, `FrontLineAgent` state record. -/
structure FrontLineAgent where
  id : String
  default_trust_profile : TrustProfile
  active_sub_agents : List (String × SubAgent)
  communication_authorizations : List CommunicationAuthorization
  event_log : List String

/-- Embedding of `FrontLineAgent._log_event` (timestamp prefix abstracted; the
`[FLA-id]` scope prefix is kept). -/
def FrontLineAgent.log_event (st : FrontLineAgent) (event_description : String) :
    FrontLineAgent :=
  { st with event_log := st.event_log ++ ["[FLA-" ++ st.id ++ "] " ++ event_description] }

/-- Does the character list start with the pattern? -/
def listStartsWith : List Char → List Char → Bool
  | [], _ => true
  | _ :: _, [] => false
  | a :: as, b :: bs => a == b && listStartsWith as bs

/-- Does the pattern occur as a contiguous run of the character list? -/
def listContainsRun (pat : List Char) (l : List Char) : Bool :=
  match l with
  | [] => pat.isEmpty
  | _ :: rest => listStartsWith pat l || listContainsRun pat rest

/-- Python `needle in haystack` on strings. -/
def containsSub (needle haystack : String) : Bool :=
  listContainsRun needle.data haystack.data

/-- Embedding of `FrontLineAgent.classify_domain`: logs, then keyword-matches over the
lower-cased intent. -/
def FrontLineAgent.classify_domain (st : FrontLineAgent) (user_intent : String) :
    FrontLineAgent × String :=
  let st₁ := st.log_event ("Classifying domain for intent: " ++ user_intent)
  let intent := user_intent.toLower
  let label :=
    if containsSub "data" intent || containsSub "analyze" intent then "DataAnalysis"
    else if containsSub "code" intent || containsSub "program" intent then "CodeGeneration"
    else if containsSub "security" intent || containsSub "audit" intent then "SecurityAudit"
    else if containsSub "research" intent || containsSub "find" intent then "Research"
    else "General"
  (st₁, label)

/-- Embedding of `FrontLineAgent.authorize_communication`: appends a grant and logs.
Python passes `tuple(scopes) if scopes else None` into `create`, so an
empty scope list is already turned into `none` here. -/
def FrontLineAgent.authorize_communication (st : FrontLineAgent)
    (from_agent_id to_agent_id : String) (is_bidirectional : Bool)
    (allowed_data_scopes : Option (List String)) (ttl : Option Int) (now : Int) :
    FrontLineAgent :=
  let scopes : Option (List String) :=
    match allowed_data_scopes with
    | none => none
    | some s => if s = [] then none else some s
  let authorization :=
    CommunicationAuthorization.create from_agent_id to_agent_id is_bidirectional scopes ttl now
  let st₁ := { st with
    communication_authorizations := st.communication_authorizations ++ [authorization] }
  st₁.log_event
    ("Authorized communication: " ++ from_agent_id ++ " -> " ++ to_agent_id ++
      " (bidirectional: " ++ (if is_bidirectional then "True" else "False") ++ ")")

/-- Embedding of `FrontLineAgent.mediate_communication`.  When `from = to`, the Python
`sender` and `receiver` variables alias one object, so the receive step
operates on the sender as already mutated by the send step. -/
def FrontLineAgent.mediate_communication (st : FrontLineAgent)
    (from_agent_id to_agent_id information : String) (now : Int) :
    FrontLineAgent × Bool :=
  match st.communication_authorizations.find?
      (fun auth => auth.is_authorized from_agent_id to_agent_id now) with
  | none =>
    (st.log_event
      ("Communication blocked: " ++ from_agent_id ++ " -> " ++ to_agent_id ++
        " - not authorized"), false)
  | some _ =>
    match dictGet st.active_sub_agents from_agent_id with
    | none =>
      (st.log_event ("Communication failed: sender " ++ from_agent_id ++ " not found"), false)
    | some sender =>
      match dictGet st.active_sub_agents to_agent_id with
      | none =>
        (st.log_event ("Communication failed: receiver " ++ to_agent_id ++ " not found"),
          false)
      | some receiver =>
        let sendRes := sender.send_information to_agent_id information
        let st₁ := { st with
          active_sub_agents := dictSet st.active_sub_agents from_agent_id sendRes.1 }
        if sendRes.2 = false then
          (st₁.log_event "Communication failed: sender rejected outbound", false)
        else
          let receiver₁ := if from_agent_id = to_agent_id then sendRes.1 else receiver
          let recvRes := receiver₁.receive_information from_agent_id information now
          let st₂ := { st₁ with
            active_sub_agents := dictSet st₁.active_sub_agents to_agent_id recvRes.1 }
          (st₂.log_event
            ("Communication mediated: " ++ from_agent_id ++ " -> " ++ to_agent_id ++
              " - success: " ++ (if recvRes.2 then "True" else "False")), recvRes.2)

/-- Embedding of `FrontLineAgent.retire_sub_agent`: retires the unit, drops it from the
active map, purges every grant referencing the id, and logs; no-op when
the id is unknown. -/
def FrontLineAgent.retire_sub_agent (st : FrontLineAgent) (agent_id : String) :
    FrontLineAgent :=
  match dictGet st.active_sub_agents agent_id with
  | none => st
  | some agent =>
    let _retired := agent.retire
    let st₁ := { st with
      active_sub_agents := dictDel st.active_sub_agents agent_id
      communication_authorizations := st.communication_authorizations.filter
        (fun auth =>
          decide (auth.from_agent_id ≠ agent_id) && decide (auth.to_agent_id ≠ agent_id)) }
    st₁.log_event ("Retired SubAgent: " ++ agent_id)

/-! ## Spec-side helper notions for the trust pipeline -/

/-- The ordered sequence of sender-trust scores the brokers return. -/
def senderScores (p : TrustProfile) (sender_id : String) : List ℚ :=
  p.trust_brokers.map (fun b => b.evaluate_sender_trust sender_id)

/-- The ordered sequence of content-trust scores the brokers return. -/
def contentScores (p : TrustProfile) (content : String) : List ℚ :=
  p.trust_brokers.map (fun b => b.evaluate_content_trust content)

/-- How many scores of the sequence lie within `agreement_tolerance`
(absolute difference) of the sequence's arithmetic mean. -/
def agreementCount (p : TrustProfile) (xs : List ℚ) : ℕ :=
  xs.countP (fun e => decide (|e - mean xs| ≤ p.agreement_tolerance))

/-! ## Lemmas about the broker loop -/

theorem validateLoop_eq_none_iff (sender_id content : String) (brokers : List ITrustBroker)
    (sAcc cAcc : List ℚ) :
    validateLoop sender_id content brokers sAcc cAcc = none ↔
      ∃ b ∈ brokers, b.is_flagged sender_id content = true := by
  induction brokers generalizing sAcc cAcc with
  | nil => simp [validateLoop]
  | cons b rest ih =>
    by_cases hb : b.is_flagged sender_id content
    · simp [validateLoop, hb]
    · simp [validateLoop, hb, ih]

theorem validateLoop_eq_some (sender_id content : String) (brokers : List ITrustBroker)
    (sAcc cAcc : List ℚ)
    (h : ∀ b ∈ brokers, b.is_flagged sender_id content = false) :
    validateLoop sender_id content brokers sAcc cAcc =
      some (sAcc ++ brokers.map (fun b => b.evaluate_sender_trust sender_id),
            cAcc ++ brokers.map (fun b => b.evaluate_content_trust content)) := by
  induction brokers generalizing sAcc cAcc with
  | nil => simp [validateLoop]
  | cons b rest ih =>
    have hb : b.is_flagged sender_id content = false := h b (List.mem_cons_self b rest)
    rw [validateLoop, if_neg (by simp [hb]), ih _ _ (fun x hx => h x (List.mem_cons_of_mem b hx))]
    simp

/-! ## Lemmas about means and clamping -/

theorem clamp01_of_mem (x : ℚ) (h0 : 0 ≤ x) (h1 : x ≤ 1) : clamp01 x = x := by
  simp [clamp01, min_eq_right h1, max_eq_right, h0]

theorem mean_mem_unit_interval (xs : List ℚ) (hne : xs ≠ [])
    (h : ∀ x ∈ xs, 0 ≤ x ∧ x ≤ 1) : 0 ≤ mean xs ∧ mean xs ≤ 1 := by
  have hlen : 0 < (xs.length : ℚ) := by
    have : 0 < xs.length := List.length_pos.mpr hne
    exact_mod_cast this
  constructor
  · exact div_nonneg (List.sum_nonneg (fun x hx => (h x hx).1)) hlen.le
  · rw [mean, div_le_one hlen]
    have := List.sum_le_card_nsmul xs 1 (fun x hx => (h x hx).2)
    simpa using this

/-- C2 counterpart is below; this is the shared skeleton: with at least one
flagging broker the validation loop aborts, and `validate_inbound` is false. -/
theorem validate_inbound_of_flag (p : TrustProfile) (sender_id content : String)
    (hflag : ∃ b ∈ p.trust_brokers, b.is_flagged sender_id content = true) :
    p.validate_inbound sender_id content = false := by
  rw [TrustProfile.validate_inbound]
  by_cases hlen : p.trust_brokers.length < p.minimum_broker_agreement
  · simp [hlen]
  · rw [if_neg hlen,
      (validateLoop_eq_none_iff sender_id content p.trust_brokers [] []).mpr hflag]

theorem has_independent_agreement_eq (p : TrustProfile) (xs : List ℚ)
    (h : p.minimum_broker_agreement ≤ xs.length) :
    p.has_independent_agreement xs =
      decide (p.minimum_broker_agreement ≤ agreementCount p xs) := by
  rw [TrustProfile.has_independent_agreement, if_neg (not_lt.mpr h)]
  rfl

/-- C1: `validate_inbound(sender_id, content)` returns true iff the number
of configured evaluators is at least the minimum-agreement count, no
evaluator flags `(sender_id, content)`, in each of the sender-trust and
content-trust score sequences at least minimum-agreement-count scores lie
within `agreement_tolerance` of that sequence's arithmetic mean, and the
pair of means meets the required trust threshold pointwise.  The
hypotheses record the `TrustProfile.__post_init__` invariant (minimum
agreement ≥ 2) and the `ITrustBroker` contract that scores lie in [0,1]. -/
theorem validate_inbound_characterization (p : TrustProfile) (sender_id content : String)
    (hmin : 2 ≤ p.minimum_broker_agreement)
    (hs01 : ∀ b ∈ p.trust_brokers,
      0 ≤ b.evaluate_sender_trust sender_id ∧ b.evaluate_sender_trust sender_id ≤ 1)
    (hc01 : ∀ b ∈ p.trust_brokers,
      0 ≤ b.evaluate_content_trust content ∧ b.evaluate_content_trust content ≤ 1) :
    p.validate_inbound sender_id content = true ↔
      (p.minimum_broker_agreement ≤ p.trust_brokers.length ∧
       (∀ b ∈ p.trust_brokers, b.is_flagged sender_id content = false) ∧
       p.minimum_broker_agreement ≤ agreementCount p (senderScores p sender_id) ∧
       p.minimum_broker_agreement ≤ agreementCount p (contentScores p content) ∧
       p.required_trust_threshold.sender_trust ≤ mean (senderScores p sender_id) ∧
       p.required_trust_threshold.content_trust ≤ mean (contentScores p content)) := by
  by_cases hlen : p.trust_brokers.length < p.minimum_broker_agreement
  · constructor
    · intro h
      rw [TrustProfile.validate_inbound, if_pos hlen] at h
      exact absurd h (by simp)
    · rintro ⟨h1, -⟩
      exact absurd h1 (by omega)
  · have hlen' : p.minimum_broker_agreement ≤ p.trust_brokers.length := not_lt.mp hlen
    by_cases hflag : ∀ b ∈ p.trust_brokers, b.is_flagged sender_id content = false
    · have hloop := validateLoop_eq_some sender_id content p.trust_brokers [] [] hflag
      simp only [List.nil_append] at hloop
      rw [TrustProfile.validate_inbound, if_neg hlen, hloop]
      have hslen : p.minimum_broker_agreement ≤ (senderScores p sender_id).length := by
        rw [senderScores, List.length_map]; exact hlen'
      have hclen : p.minimum_broker_agreement ≤ (contentScores p content).length := by
        rw [contentScores, List.length_map]; exact hlen'
      have hsne : senderScores p sender_id ≠ [] := by
        have : 0 < (senderScores p sender_id).length := by omega
        exact List.length_pos.mp this
      have hcne : contentScores p content ≠ [] := by
        have : 0 < (contentScores p content).length := by omega
        exact List.length_pos.mp this
      have hsmean := mean_mem_unit_interval (senderScores p sender_id) hsne (by
        intro x hx
        obtain ⟨b, hb, rfl⟩ := List.mem_map.mp hx
        exact hs01 b hb)
      have hcmean := mean_mem_unit_interval (contentScores p content) hcne (by
        intro x hx
        obtain ⟨b, hb, rfl⟩ := List.mem_map.mp hx
        exact hc01 b hb)
      show (if !(p.has_independent_agreement (senderScores p sender_id)) then false
            else if !(p.has_independent_agreement (contentScores p content)) then false
            else (TrustLevel.make (mean (senderScores p sender_id))
              (mean (contentScores p content))).meets_threshold
                p.required_trust_threshold) = true ↔ _
      rw [has_independent_agreement_eq p _ hslen, has_independent_agreement_eq p _ hclen]
      by_cases hA : p.minimum_broker_agreement ≤ agreementCount p (senderScores p sender_id)
      · by_cases hB : p.minimum_broker_agreement ≤ agreementCount p (contentScores p content)
        · rw [if_neg (by simp [hA]), if_neg (by simp [hB])]
          simp only [TrustLevel.make, TrustLevel.meets_threshold,
            clamp01_of_mem _ hsmean.1 hsmean.2, clamp01_of_mem _ hcmean.1 hcmean.2,
            Bool.and_eq_true, decide_eq_true_eq]
          constructor
          · rintro ⟨h1, h2⟩
            exact ⟨hlen', hflag, hA, hB, h1, h2⟩
          · rintro ⟨-, -, -, -, h1, h2⟩
            exact ⟨h1, h2⟩
        · rw [if_neg (by simp [hA]), if_pos (by simp [hB])]
          constructor
          · intro h
            exact absurd h (by simp)
          · rintro ⟨-, -, -, hB', -⟩
            exact absurd hB' hB
      · rw [if_pos (by simp [hA])]
        constructor
        · intro h
          exact absurd h (by simp)
        · rintro ⟨-, -, hA', -⟩
          exact absurd hA' hA
    · have hex : ∃ b ∈ p.trust_brokers, b.is_flagged sender_id content = true := by
        by_contra hne
        exact hflag (fun b hb => by
          rcases Bool.eq_false_or_eq_true (b.is_flagged sender_id content) with h | h
          · exact absurd ⟨b, hb, h⟩ hne
          · exact h)
      rw [validate_inbound_of_flag p sender_id content hex]
      constructor
      · intro h
        exact absurd h (by simp)
      · rintro ⟨-, hnf, -⟩
        obtain ⟨b, hb, hbt⟩ := hex
        rw [hnf b hb] at hbt
        cases hbt

/-! ## Concrete instances used by witnesses and counterexamples -/

/-- A broker that always scores 1 and never flags. -/
def brokerOne : ITrustBroker := ⟨"b1", "Broker One", fun _ => 1, fun _ => 1, fun _ _ => false⟩

/-- A second broker that always scores 1 and never flags. -/
def brokerTwo : ITrustBroker := ⟨"b2", "Broker Two", fun _ => 1, fun _ => 1, fun _ _ => false⟩

/-- A broker that always flags, while still scoring 1. -/
def brokerFlagging : ITrustBroker :=
  ⟨"b3", "Broker Three", fun _ => 1, fun _ => 1, fun _ _ => true⟩

/-- A permissive profile: two unanimous brokers, zero required threshold. -/
def profileOpen : TrustProfile := ⟨.INTERNAL, ⟨0, 0⟩, [brokerOne, brokerTwo], 2, 1/10⟩

/-- Like `profileOpen` but with one flagging broker. -/
def profileFlagged : TrustProfile :=
  ⟨.INTERNAL, ⟨0, 0⟩, [brokerOne, brokerFlagging], 2, 1/10⟩

theorem validate_inbound_characterization_witness :
    profileOpen.validate_inbound "alice" "hello" = true :=
  (validate_inbound_characterization profileOpen "alice" "hello"
    (by decide)
    (by simp [profileOpen, brokerOne, brokerTwo])
    (by simp [profileOpen, brokerOne, brokerTwo])).mpr
    ⟨by decide,
     by simp [profileOpen, brokerOne, brokerTwo],
     by simp [agreementCount, senderScores, mean, profileOpen, brokerOne, brokerTwo,
       List.countP, List.countP.go],
     by simp [agreementCount, contentScores, mean, profileOpen, brokerOne, brokerTwo,
       List.countP, List.countP.go],
     by simp [senderScores, mean, profileOpen, brokerOne, brokerTwo],
     by simp [contentScores, mean, profileOpen, brokerOne, brokerTwo]⟩

/-- C2: if at least one configured evaluator flags `(sender_id, content)`,
then `validate_inbound` returns false, regardless of the trust scores any
evaluator returns. -/
theorem validate_inbound_veto (p : TrustProfile) (sender_id content : String)
    (hflag : ∃ b ∈ p.trust_brokers, b.is_flagged sender_id content = true) :
    p.validate_inbound sender_id content = false :=
  validate_inbound_of_flag p sender_id content hflag

theorem validate_inbound_veto_witness :
    profileFlagged.validate_inbound "alice" "hello" = false :=
  validate_inbound_veto profileFlagged "alice" "hello"
    ⟨brokerFlagging, List.mem_cons_of_mem _ (List.mem_cons_self _ _), rfl⟩

theorem meets_threshold_mono (t T T' : TrustLevel)
    (hs : T.sender_trust ≤ T'.sender_trust) (hc : T.content_trust ≤ T'.content_trust)
    (h : t.meets_threshold T' = true) : t.meets_threshold T = true := by
  simp only [TrustLevel.meets_threshold, Bool.and_eq_true, decide_eq_true_eq] at h ⊢
  exact ⟨le_trans hs h.1, le_trans hc h.2⟩

/-- C9: for fixed evaluator outputs, raising the required trust threshold
on either dimension can only change `validate_inbound` from accept to
reject: if it accepts under the pointwise-larger threshold `T'`, it
accepts under `T ≤ T'`. -/
theorem validate_inbound_threshold_monotone (sl : SecurityLevel) (T T' : TrustLevel)
    (brokers : List ITrustBroker) (m : ℕ) (tol : ℚ) (sender_id content : String)
    (hs : T.sender_trust ≤ T'.sender_trust) (hc : T.content_trust ≤ T'.content_trust)
    (hacc : TrustProfile.validate_inbound ⟨sl, T', brokers, m, tol⟩ sender_id content = true) :
    TrustProfile.validate_inbound ⟨sl, T, brokers, m, tol⟩ sender_id content = true := by
  rw [TrustProfile.validate_inbound] at hacc ⊢
  dsimp only at hacc ⊢
  by_cases hlen : brokers.length < m
  · rw [if_pos hlen] at hacc
    cases hacc
  · rw [if_neg hlen] at hacc ⊢
    cases hl : validateLoop sender_id content brokers [] [] with
    | none =>
      rw [hl] at hacc
      cases hacc
    | some pair =>
      obtain ⟨l1, l2⟩ := pair
      rw [hl] at hacc
      have heq1 : TrustProfile.has_independent_agreement ⟨sl, T', brokers, m, tol⟩ l1 =
          TrustProfile.has_independent_agreement ⟨sl, T, brokers, m, tol⟩ l1 := rfl
      have heq2 : TrustProfile.has_independent_agreement ⟨sl, T', brokers, m, tol⟩ l2 =
          TrustProfile.has_independent_agreement ⟨sl, T, brokers, m, tol⟩ l2 := rfl
      dsimp only at hacc ⊢
      rw [heq1, heq2] at hacc
      by_cases h1 : TrustProfile.has_independent_agreement ⟨sl, T, brokers, m, tol⟩ l1
      · by_cases h2 : TrustProfile.has_independent_agreement ⟨sl, T, brokers, m, tol⟩ l2
        · rw [if_neg (by simp [h1]), if_neg (by simp [h2])] at hacc ⊢
          exact meets_threshold_mono _ T T' hs hc hacc
        · rw [if_neg (by simp [h1]), if_pos (by simp [h2])] at hacc
          cases hacc
      · rw [if_pos (by simp [h1])] at hacc
        cases hacc

theorem validate_inbound_threshold_monotone_witness :
    TrustProfile.validate_inbound
      ⟨SecurityLevel.INTERNAL, ⟨0, 0⟩, [brokerOne, brokerTwo], 2, 1/10⟩ "alice" "hello" =
      true :=
  validate_inbound_threshold_monotone SecurityLevel.INTERNAL ⟨0, 0⟩ ⟨1, 1⟩
    [brokerOne, brokerTwo] 2 (1/10) "alice" "hello"
    (by norm_num) (by norm_num)
    (by simp [TrustProfile.validate_inbound, validateLoop, brokerOne, brokerTwo,
      TrustProfile.has_independent_agreement, mean, List.countP, List.countP.go,
      TrustLevel.make, TrustLevel.meets_threshold, clamp01])

/-! ## Authorization grants -/

/-- A degenerate grant whose two endpoints coincide. -/
def selfGrant : CommunicationAuthorization := ⟨"X", "X", false, ["*"], 0, none⟩

/-- C6 counterexample: the claim's gloss "a non-bidirectional grant from A
to B never authorizes the (B, A) direction" fails when A = B: the
unexpired non-bidirectional self-grant on "X" does authorize the reversed
pair (its `to_agent_id`, its `from_agent_id`). -/
theorem is_authorized_self_counterexample :
    selfGrant.is_bidirectional = false ∧
    selfGrant.is_authorized selfGrant.to_agent_id selfGrant.from_agent_id 0 = true := by
  constructor
  · rfl
  · rw [CommunicationAuthorization.is_authorized,
      if_neg (by simp [selfGrant, CommunicationAuthorization.is_expired]),
      if_pos ⟨rfl, rfl⟩]

/-- C6 (amended): `is_authorized(from, to)` is true iff the grant is not
expired and either (from, to) matches (grant.from, grant.to), or the grant
is bidirectional and (from, to) matches (grant.to, grant.from).  In
particular, a non-bidirectional grant between **distinct** endpoints A ≠ B
never authorizes the (B, A) direction, and an unexpired bidirectional
grant authorizes both directions. -/
theorem is_authorized_characterization (g : CommunicationAuthorization)
    (from_id to_id : String) (now : Int) :
    (g.is_authorized from_id to_id now = true ↔
      g.is_expired now = false ∧
        ((g.from_agent_id = from_id ∧ g.to_agent_id = to_id) ∨
         (g.is_bidirectional = true ∧ g.from_agent_id = to_id ∧ g.to_agent_id = from_id))) ∧
    (g.is_bidirectional = false → g.from_agent_id ≠ g.to_agent_id →
      g.is_authorized g.to_agent_id g.from_agent_id now = false) ∧
    (g.is_bidirectional = true → g.is_expired now = false →
      g.is_authorized g.from_agent_id g.to_agent_id now = true ∧
      g.is_authorized g.to_agent_id g.from_agent_id now = true) := by
  refine ⟨?_, ?_, ?_⟩
  · by_cases hexp : g.is_expired now = true
    · simp [CommunicationAuthorization.is_authorized, hexp]
    · have hexp' : g.is_expired now = false := by simpa using hexp
      rw [CommunicationAuthorization.is_authorized, if_neg hexp]
      by_cases h1 : g.from_agent_id = from_id ∧ g.to_agent_id = to_id
      · simp [h1, hexp']
      · by_cases h2 : g.is_bidirectional = true ∧ g.from_agent_id = to_id ∧
            g.to_agent_id = from_id
        · simp [h1, h2, hexp']
        · simp [h1, h2, hexp']
  · intro hbid hne
    simp [CommunicationAuthorization.is_authorized, hbid, hne]
  · intro hbid hexp
    refine ⟨by simp [CommunicationAuthorization.is_authorized, hexp], ?_⟩
    rw [CommunicationAuthorization.is_authorized, if_neg (by simp [hexp])]
    split
    · rfl
    · rw [if_pos ⟨hbid, rfl, rfl⟩]

theorem is_authorized_characterization_witness :
    (⟨"A", "B", false, ["*"], 0, none⟩ : CommunicationAuthorization).is_authorized "B" "A" 5 =
      false ∧
    (⟨"A", "B", true, ["*"], 0, none⟩ : CommunicationAuthorization).is_authorized "B" "A" 5 =
      true :=
  ⟨((is_authorized_characterization ⟨"A", "B", false, ["*"], 0, none⟩ "B" "A" 5).2.1)
    rfl (by decide),
   (((is_authorized_characterization ⟨"A", "B", true, ["*"], 0, none⟩ "B" "A" 5).2.2)
    rfl rfl).2⟩

/-! ## Concrete Coordinator states -/

/-- An active sub-unit "A" under the permissive profile. -/
def agentA : SubAgent := ⟨"A", "dom", profileOpen, .ACTIVE, [], []⟩

/-- An active sub-unit "B" under the permissive profile. -/
def agentB : SubAgent := ⟨"B", "dom", profileOpen, .ACTIVE, [], []⟩

/-- A grant from "A" to "B" created at time 100 with a zero ttl: the
Python truthiness test turns it into a grant with **no** expiry. -/
def zeroTtlGrant : CommunicationAuthorization :=
  CommunicationAuthorization.create "A" "B" false none (some 0) 100

/-- A Coordinator holding only the zero-ttl grant and the two active units. -/
def flaZeroTtl : FrontLineAgent :=
  ⟨"F", profileOpen, [("A", agentA), ("B", agentB)], [zeroTtlGrant], []⟩

/-- C5 counterexample: a grant created with ttl = 0 IS matched by
`mediate_communication` — mediation succeeds both at the creation instant
(now = 100) and arbitrarily much later (now = 1000000), because
`expires_at = created_at + ttl if ttl else None` treats `timedelta(0)` as
falsy and stores no expiry at all. -/
theorem grant_zero_ttl_counterexample :
    (flaZeroTtl.mediate_communication "A" "B" "hello" 100).2 = true ∧
    (flaZeroTtl.mediate_communication "A" "B" "hello" 1000000).2 = true := by
  constructor <;>
    simp [FrontLineAgent.mediate_communication, flaZeroTtl, zeroTtlGrant, agentA, agentB,
      CommunicationAuthorization.create, CommunicationAuthorization.is_authorized,
      CommunicationAuthorization.is_expired, dictGet, dictSet, List.find?,
      SubAgent.send_information, SubAgent.receive_information, SubAgent.log_activity,
      TrustProfile.validate_inbound, validateLoop, profileOpen, brokerOne, brokerTwo,
      TrustProfile.has_independent_agreement, mean, List.countP, List.countP.go,
      TrustLevel.make, TrustLevel.meets_threshold, clamp01]

/-- C5 (amended): a grant created with a strictly negative (already
elapsed) ttl is never matched: on a Coordinator holding only such a grant,
`mediate_communication` returns false for every pair of identities at any
time from the creation instant on.  (A ttl of exactly zero does NOT behave
this way: it is treated as "no ttl", so the grant never expires; see the
counterexample.) -/
theorem grant_negative_ttl_never_matched (st : FrontLineAgent)
    (fromId toId information : String) (bidir : Bool) (scopes : Option (List String))
    (ttl c now : Int) (httl : ttl < 0) (hc : c ≤ now)
    (hauth : st.communication_authorizations =
      [CommunicationAuthorization.create fromId toId bidir scopes (some ttl) c])
    (x y : String) :
    (st.mediate_communication x y information now).2 = false := by
  have hexp : (CommunicationAuthorization.create fromId toId bidir scopes
      (some ttl) c).is_expired now = true := by
    have hne : ¬ ttl = 0 := by omega
    simp [CommunicationAuthorization.create, CommunicationAuthorization.is_expired, hne]
    omega
  have hfind : st.communication_authorizations.find?
      (fun auth => auth.is_authorized x y now) = none := by
    rw [hauth, List.find?_eq_none]
    intro g hg
    simp only [List.mem_singleton] at hg
    subst hg
    simp [CommunicationAuthorization.is_authorized, hexp]
  rw [FrontLineAgent.mediate_communication, hfind]

theorem grant_negative_ttl_never_matched_witness :
    ((⟨"F", profileOpen, [("A", agentA), ("B", agentB)],
        [CommunicationAuthorization.create "A" "B" false none (some (-5)) 100],
        []⟩ : FrontLineAgent).mediate_communication "A" "B" "hello" 100).2 = false :=
  grant_negative_ttl_never_matched _ "A" "B" "hello" false none (-5) 100 100
    (by norm_num) (by norm_num) rfl "A" "B"

/-! ## Mediation -/

theorem append_success_false (s : String) :
    s ++ " - success: " ++ "False" = s ++ " - success: False" := by
  rw [String.append_assoc]
  rfl

theorem receive_information_snd_log (a : SubAgent) (m sender_id information : String)
    (now : Int) :
    ((a.log_activity m).receive_information sender_id information now).2 =
      (a.receive_information sender_id information now).2 := by
  by_cases hs : a.status = MissionStatus.ACTIVE
  · by_cases hv : a.trust_profile.validate_inbound sender_id information
    · simp [SubAgent.receive_information, SubAgent.log_activity, hs, hv]
    · simp [SubAgent.receive_information, SubAgent.log_activity, hs, hv]
  · simp [SubAgent.receive_information, SubAgent.log_activity, hs]

theorem send_information_fst (a : SubAgent) (recipient_id information : String) :
    ∃ m, (a.send_information recipient_id information).1 = a.log_activity m := by
  by_cases hs : a.status = MissionStatus.ACTIVE
  · exact ⟨"Sending information to: " ++ recipient_id ++
      " (SL: " ++ a.trust_profile.security_level.pyStr ++ ")",
      by simp [SubAgent.send_information, hs]⟩
  · exact ⟨"Cannot send information - status: " ++ a.status.pyStr,
      by simp [SubAgent.send_information, hs]⟩

theorem receive_information_snd_after_send (a : SubAgent)
    (recipient_id info sender_id info' : String) (now : Int) :
    (((a.send_information recipient_id info).1).receive_information sender_id info' now).2 =
      (a.receive_information sender_id info' now).2 := by
  obtain ⟨m, hm⟩ := send_information_fst a recipient_id info
  rw [hm, receive_information_snd_log]

/-- C3: `mediate_communication(from, to, content)` returns true iff some
stored grant matches (from, to) at the call time, both endpoints are in
the active map, the sender's `send_information` returns true, and the
receiver's `receive_information` returns true; in every failing case it
returns false and appends exactly one event-log entry stating the reason. -/
theorem mediate_communication_characterization (st : FrontLineAgent)
    (fromId toId information : String) (now : Int) :
    ((st.mediate_communication fromId toId information now).2 = true ↔
      ((∃ g ∈ st.communication_authorizations, g.is_authorized fromId toId now = true) ∧
       ∃ sender receiver,
         dictGet st.active_sub_agents fromId = some sender ∧
         dictGet st.active_sub_agents toId = some receiver ∧
         (sender.send_information toId information).2 = true ∧
         (receiver.receive_information fromId information now).2 = true)) ∧
    ((st.mediate_communication fromId toId information now).2 = false →
      ∃ reason,
        (st.mediate_communication fromId toId information now).1.event_log =
          st.event_log ++ ["[FLA-" ++ st.id ++ "] " ++ reason] ∧
        (reason = "Communication blocked: " ++ fromId ++ " -> " ++ toId ++
            " - not authorized" ∨
         reason = "Communication failed: sender " ++ fromId ++ " not found" ∨
         reason = "Communication failed: receiver " ++ toId ++ " not found" ∨
         reason = "Communication failed: sender rejected outbound" ∨
         reason = "Communication mediated: " ++ fromId ++ " -> " ++ toId ++
            " - success: False")) := by
  cases hfind : st.communication_authorizations.find?
      (fun auth => auth.is_authorized fromId toId now) with
  | none =>
    constructor
    · simp only [FrontLineAgent.mediate_communication, hfind]
      constructor
      · intro h
        exact absurd h (by simp)
      · rintro ⟨⟨g, hg, hga⟩, -⟩
        exact absurd hga (List.find?_eq_none.mp hfind g hg)
    · intro hfalse
      refine ⟨"Communication blocked: " ++ fromId ++ " -> " ++ toId ++ " - not authorized",
        ?_, Or.inl rfl⟩
      simp only [FrontLineAgent.mediate_communication, hfind, FrontLineAgent.log_event]
  | some g0 =>
    have hg0mem := List.mem_of_find?_eq_some hfind
    have hg0auth : g0.is_authorized fromId toId now = true := by
      have := List.find?_some hfind
      simpa using this
    cases hs : dictGet st.active_sub_agents fromId with
    | none =>
      constructor
      · simp only [FrontLineAgent.mediate_communication, hfind, hs]
        constructor
        · intro h
          exact absurd h (by simp)
        · rintro ⟨-, sender, receiver, hs', -⟩
          cases hs'
      · intro hfalse
        refine ⟨"Communication failed: sender " ++ fromId ++ " not found", ?_, Or.inr (Or.inl rfl)⟩
        simp only [FrontLineAgent.mediate_communication, hfind, hs, FrontLineAgent.log_event]
    | some sender =>
      cases hr : dictGet st.active_sub_agents toId with
      | none =>
        constructor
        · simp only [FrontLineAgent.mediate_communication, hfind, hs, hr]
          constructor
          · intro h
            exact absurd h (by simp)
          · rintro ⟨-, sender', receiver', -, hr', -⟩
            cases hr'
        · intro hfalse
          refine ⟨"Communication failed: receiver " ++ toId ++ " not found", ?_,
            Or.inr (Or.inr (Or.inl rfl))⟩
          simp only [FrontLineAgent.mediate_communication, hfind, hs, hr,
            FrontLineAgent.log_event]
      | some receiver =>
        have hrecv : ((if fromId = toId then (sender.send_information toId information).1
            else receiver).receive_information fromId information now).2 =
            (receiver.receive_information fromId information now).2 := by
          by_cases heq : fromId = toId
          · rw [if_pos heq]
            subst heq
            rw [hs] at hr
            cases hr
            exact receive_information_snd_after_send sender fromId information fromId
              information now
          · rw [if_neg heq]
        by_cases hsend : (sender.send_information toId information).2 = true
        · constructor
          · simp only [FrontLineAgent.mediate_communication, hfind, hs, hr, hsend,
              if_neg (by simp [hsend] : ¬((sender.send_information toId information).2 = false))]
            rw [hrecv]
            constructor
            · intro hrec
              exact ⟨⟨g0, hg0mem, hg0auth⟩, sender, receiver, rfl, rfl, hsend, hrec⟩
            · rintro ⟨-, sender', receiver', hs', hr', -, hrec'⟩
              cases hs'
              cases hr'
              exact hrec'
          · intro hfalse
            simp only [FrontLineAgent.mediate_communication, hfind, hs, hr,
              if_neg (by simp [hsend] : ¬((sender.send_information toId information).2 = false)),
              FrontLineAgent.log_event] at hfalse ⊢
            rw [hrecv] at hfalse
            refine ⟨"Communication mediated: " ++ fromId ++ " -> " ++ toId ++
              " - success: False", ?_, Or.inr (Or.inr (Or.inr (Or.inr rfl)))⟩
            rw [hrecv, hfalse]
            simp only [Bool.false_eq_true, if_false]
            rw [append_success_false]
        · have hsend' : (sender.send_information toId information).2 = false := by
            simpa using hsend
          constructor
          · simp only [FrontLineAgent.mediate_communication, hfind, hs, hr, hsend',
              if_pos rfl]
            constructor
            · intro h
              exact absurd h (by simp)
            · rintro ⟨-, sender', receiver', hs', hr', hsend'', -⟩
              cases hs'
              cases hr'
              rw [hsend''] at hsend'
              cases hsend'
          · intro hfalse
            refine ⟨"Communication failed: sender rejected outbound", ?_,
              Or.inr (Or.inr (Or.inr (Or.inl rfl)))⟩
            simp only [FrontLineAgent.mediate_communication, hfind, hs, hr, hsend',
              eq_self_iff_true, if_true, FrontLineAgent.log_event]

/-- A Coordinator with two active units and no grants at all. -/
def flaNoGrant : FrontLineAgent := ⟨"F", profileOpen, [("A", agentA), ("B", agentB)], [], []⟩

theorem mediate_communication_characterization_witness :
    ∃ reason,
      (flaNoGrant.mediate_communication "A" "B" "x" 0).1.event_log =
        flaNoGrant.event_log ++ ["[FLA-" ++ flaNoGrant.id ++ "] " ++ reason] ∧
      (reason = "Communication blocked: " ++ "A" ++ " -> " ++ "B" ++ " - not authorized" ∨
       reason = "Communication failed: sender " ++ "A" ++ " not found" ∨
       reason = "Communication failed: receiver " ++ "B" ++ " not found" ∨
       reason = "Communication failed: sender rejected outbound" ∨
       reason = "Communication mediated: " ++ "A" ++ " -> " ++ "B" ++ " - success: False") :=
  (mediate_communication_characterization flaNoGrant "A" "B" "x" 0).2
    (by simp [FrontLineAgent.mediate_communication, flaNoGrant, List.find?,
      FrontLineAgent.log_event])

/-! ## Retirement -/

theorem dictGet_dictDel (m : List (String × SubAgent)) (k : String) :
    dictGet (dictDel m k) k = none := by
  induction m with
  | nil => rfl
  | cons kv rest ih =>
    by_cases h : kv.1 = k
    · simpa [dictDel, List.filter, h] using ih
    · simpa [dictDel, dictGet, List.filter, h] using ih

theorem is_authorized_false_of_not_endpoint (g : CommunicationAuthorization)
    (X other : String) (now : Int)
    (hf : g.from_agent_id ≠ X) (ht : g.to_agent_id ≠ X) :
    g.is_authorized X other now = false ∧ g.is_authorized other X now = false := by
  constructor
  · simp [CommunicationAuthorization.is_authorized, hf, ht]
  · simp [CommunicationAuthorization.is_authorized, hf, ht]

/-- C4: after `retire_sub_unit(X)` on a state whose active map contains X,
the unit is retired and removed from the active map, no remaining grant
has X as either endpoint, and every mediation with X as sender or as
receiver returns false; on an unknown id the whole state is unchanged. -/
theorem retire_sub_agent_purge (st : FrontLineAgent) (X : String) :
    (∀ a, dictGet st.active_sub_agents X = some a →
      (a.retire).status = MissionStatus.RETIRED ∧
      dictGet (st.retire_sub_agent X).active_sub_agents X = none ∧
      (∀ g ∈ (st.retire_sub_agent X).communication_authorizations,
        g.from_agent_id ≠ X ∧ g.to_agent_id ≠ X) ∧
      (∀ t information now,
        ((st.retire_sub_agent X).mediate_communication X t information now).2 = false) ∧
      (∀ s information now,
        ((st.retire_sub_agent X).mediate_communication s X information now).2 = false)) ∧
    (dictGet st.active_sub_agents X = none → st.retire_sub_agent X = st) := by
  constructor
  · intro a ha
    have hst' : st.retire_sub_agent X =
        { st with
          active_sub_agents := dictDel st.active_sub_agents X
          communication_authorizations := st.communication_authorizations.filter
            (fun auth =>
              decide (auth.from_agent_id ≠ X) && decide (auth.to_agent_id ≠ X))
          event_log := st.event_log ++ ["[FLA-" ++ st.id ++ "] " ++
            ("Retired SubAgent: " ++ X)] } := by
      rw [FrontLineAgent.retire_sub_agent, ha]
      rfl
    have hretired : (a.retire).status = MissionStatus.RETIRED := by
      rw [SubAgent.retire]
      by_cases h : a.status = MissionStatus.RETIRED
      · rw [if_pos h]
        exact h
      · rw [if_neg h]
        rfl
    have hpurge : ∀ g ∈ (st.retire_sub_agent X).communication_authorizations,
        g.from_agent_id ≠ X ∧ g.to_agent_id ≠ X := by
      intro g hg
      rw [hst'] at hg
      simp only [List.mem_filter, Bool.and_eq_true, decide_eq_true_eq] at hg
      exact hg.2
    have hfind : ∀ x y : String, ∀ now : Int, (x = X ∨ y = X) →
        (st.retire_sub_agent X).communication_authorizations.find?
          (fun auth => auth.is_authorized x y now) = none := by
      intro x y now hxy
      rw [List.find?_eq_none]
      intro g hg
      obtain ⟨hf, ht⟩ := hpurge g hg
      rcases hxy with h | h
      · subst h
        simp [(is_authorized_false_of_not_endpoint g x y now hf ht).1]
      · subst h
        simp [(is_authorized_false_of_not_endpoint g y x now hf ht).2]
    refine ⟨hretired, ?_, hpurge, ?_, ?_⟩
    · rw [hst']
      exact dictGet_dictDel st.active_sub_agents X
    · intro t information now
      rw [FrontLineAgent.mediate_communication, hfind X t now (Or.inl rfl)]
    · intro s information now
      rw [FrontLineAgent.mediate_communication, hfind s X now (Or.inr rfl)]
  · intro hnone
    rw [FrontLineAgent.retire_sub_agent, hnone]

/-- A Coordinator with two active units and one grant from "A" to "B". -/
def flaRetire : FrontLineAgent :=
  ⟨"F", profileOpen, [("A", agentA), ("B", agentB)],
    [CommunicationAuthorization.create "A" "B" false none none 0], []⟩

theorem retire_sub_agent_purge_witness :
    (agentA.retire).status = MissionStatus.RETIRED ∧
    dictGet (flaRetire.retire_sub_agent "A").active_sub_agents "A" = none ∧
    ((flaRetire.retire_sub_agent "A").mediate_communication "A" "B" "x" 0).2 = false ∧
    ((flaRetire.retire_sub_agent "A").mediate_communication "B" "A" "x" 0).2 = false ∧
    flaRetire.retire_sub_agent "Z" = flaRetire :=
  ⟨((retire_sub_agent_purge flaRetire "A").1 agentA rfl).1,
   ((retire_sub_agent_purge flaRetire "A").1 agentA rfl).2.1,
   ((retire_sub_agent_purge flaRetire "A").1 agentA rfl).2.2.2.1 "B" "x" 0,
   ((retire_sub_agent_purge flaRetire "A").1 agentA rfl).2.2.2.2 "B" "x" 0,
   (retire_sub_agent_purge flaRetire "Z").2 rfl⟩

/-! ## SubAgent lifecycle -/

theorem retire_status (a : SubAgent) : (a.retire).status = MissionStatus.RETIRED := by
  rw [SubAgent.retire]
  by_cases h : a.status = MissionStatus.RETIRED
  · rw [if_pos h]
    exact h
  · rw [if_neg h]
    rfl

/-- C7: lifecycle operations outside their legal source states are
rejected: `start_mission` fails with the invalid-transition error unless
CREATED, `process_task` unless ACTIVE, `complete_mission` unless ACTIVE or
PAUSED; `receive_information` and `send_information` return false (totally,
without failing) when not ACTIVE; and after `retire` the unit is RETIRED,
every transition fails, messaging returns false, and a second `retire` is
a no-op leaving the status RETIRED. -/
theorem sub_agent_state_machine (a : SubAgent) :
    (a.status ≠ MissionStatus.CREATED →
      a.start_mission = .error ("Cannot start mission from status: " ++ a.status.pyStr)) ∧
    (∀ task, a.status ≠ MissionStatus.ACTIVE →
      a.process_task task = .error ("Cannot process task in status: " ++ a.status.pyStr)) ∧
    (a.status ≠ MissionStatus.ACTIVE → a.status ≠ MissionStatus.PAUSED →
      a.complete_mission =
        .error ("Cannot complete mission from status: " ++ a.status.pyStr)) ∧
    (∀ sender_id information now, a.status ≠ MissionStatus.ACTIVE →
      (a.receive_information sender_id information now).2 = false) ∧
    (∀ recipient_id information, a.status ≠ MissionStatus.ACTIVE →
      (a.send_information recipient_id information).2 = false) ∧
    ((a.retire).status = MissionStatus.RETIRED ∧
     (a.retire).start_mission =
       .error "Cannot start mission from status: MissionStatus.RETIRED" ∧
     (∀ task, (a.retire).process_task task =
       .error "Cannot process task in status: MissionStatus.RETIRED") ∧
     (a.retire).complete_mission =
       .error "Cannot complete mission from status: MissionStatus.RETIRED" ∧
     (∀ sender_id information now,
       ((a.retire).receive_information sender_id information now).2 = false) ∧
     (∀ recipient_id information,
       ((a.retire).send_information recipient_id information).2 = false) ∧
     (a.retire).retire = a.retire) := by
  have hr : (a.retire).status = MissionStatus.RETIRED := retire_status a
  refine ⟨?_, ?_, ?_, ?_, ?_, hr, ?_, ?_, ?_, ?_, ?_, ?_⟩
  · intro h
    rw [SubAgent.start_mission, if_pos h]
  · intro task h
    rw [SubAgent.process_task, if_pos h]
  · intro h1 h2
    rw [SubAgent.complete_mission, if_pos ⟨h1, h2⟩]
  · intro sender_id information now h
    simp [SubAgent.receive_information, h]
  · intro recipient_id information h
    simp [SubAgent.send_information, h]
  · simp [SubAgent.start_mission, hr, MissionStatus.pyStr]
  · intro task
    simp [SubAgent.process_task, hr, MissionStatus.pyStr]
  · simp [SubAgent.complete_mission, hr, MissionStatus.pyStr]
  · intro sender_id information now
    simp [SubAgent.receive_information, hr]
  · intro recipient_id information
    simp [SubAgent.send_information, hr]
  · conv_lhs => rw [SubAgent.retire]
    rw [if_pos hr]

/-- A unit whose mission has already completed. -/
def agentCompleted : SubAgent := ⟨"W", "dom", profileOpen, .COMPLETED, [], []⟩

theorem sub_agent_state_machine_witness :
    agentCompleted.start_mission =
      .error ("Cannot start mission from status: " ++ agentCompleted.status.pyStr) ∧
    agentCompleted.process_task "t" =
      .error ("Cannot process task in status: " ++ agentCompleted.status.pyStr) ∧
    agentCompleted.complete_mission =
      .error ("Cannot complete mission from status: " ++ agentCompleted.status.pyStr) ∧
    (agentCompleted.receive_information "s" "i" 0).2 = false ∧
    (agentCompleted.send_information "r" "i").2 = false ∧
    (agentCompleted.retire).retire = agentCompleted.retire :=
  ⟨(sub_agent_state_machine agentCompleted).1 (by decide),
   (sub_agent_state_machine agentCompleted).2.1 "t" (by decide),
   (sub_agent_state_machine agentCompleted).2.2.1 (by decide) (by decide),
   (sub_agent_state_machine agentCompleted).2.2.2.1 "s" "i" 0 (by decide),
   (sub_agent_state_machine agentCompleted).2.2.2.2.1 "r" "i" (by decide),
   (sub_agent_state_machine agentCompleted).2.2.2.2.2.2.2.2.2.2.2⟩

/-! ## Inbound frame condition -/

theorem mem_insertAssoc (m : List (String × String)) (k v : String) :
    (k, v) ∈ insertAssoc m k v := by
  induction m with
  | nil => simp [insertAssoc]
  | cons kv rest ih =>
    by_cases h : kv.1 = k
    · subst h
      simp [insertAssoc]
    · simp only [insertAssoc, if_neg h]
      exact List.mem_cons_of_mem kv ih

/-- C10: whenever `receive_information` returns false the local state
store is exactly as before (while the activity log gains one entry); an
entry holding the content is added to the local state only when the call
returns true. -/
theorem receive_information_frame (a : SubAgent) (sender_id information : String)
    (now : Int) :
    ((a.receive_information sender_id information now).2 = false →
      (a.receive_information sender_id information now).1.local_state = a.local_state ∧
      ∃ e, (a.receive_information sender_id information now).1.activity_log =
        a.activity_log ++ [e]) ∧
    ((a.receive_information sender_id information now).2 = true →
      (a.receive_information sender_id information now).1.local_state =
        insertAssoc a.local_state ("received_" ++ toString now) information ∧
      ("received_" ++ toString now, information) ∈
        (a.receive_information sender_id information now).1.local_state ∧
      ∃ e, (a.receive_information sender_id information now).1.activity_log =
        a.activity_log ++ [e]) := by
  by_cases hs : a.status = MissionStatus.ACTIVE
  · by_cases hv : a.trust_profile.validate_inbound sender_id information = true
    · constructor
      · intro hfalse
        simp [SubAgent.receive_information, SubAgent.log_activity, hs, hv] at hfalse
      · intro _
        have h1 : (a.receive_information sender_id information now).1.local_state =
            insertAssoc a.local_state ("received_" ++ toString now) information := by
          simp [SubAgent.receive_information, SubAgent.log_activity, hs, hv]
        refine ⟨h1, ?_, ?_⟩
        · rw [h1]
          exact mem_insertAssoc a.local_state ("received_" ++ toString now) information
        · exact ⟨"Accepted information from: " ++ sender_id,
            by simp [SubAgent.receive_information, SubAgent.log_activity, hs, hv]⟩
    · constructor
      · intro _
        refine ⟨by simp [SubAgent.receive_information, SubAgent.log_activity, hs, hv], ?_⟩
        exact ⟨"Rejected information from: " ++ sender_id ++ " - trust validation failed",
          by simp [SubAgent.receive_information, SubAgent.log_activity, hs, hv]⟩
      · intro htrue
        simp [SubAgent.receive_information, SubAgent.log_activity, hs, hv] at htrue
  · constructor
    · intro _
      refine ⟨by simp [SubAgent.receive_information, SubAgent.log_activity, hs], ?_⟩
      exact ⟨"Rejected inbound information - status: " ++ a.status.pyStr,
        by simp [SubAgent.receive_information, SubAgent.log_activity, hs]⟩
    · intro htrue
      simp [SubAgent.receive_information, SubAgent.log_activity, hs] at htrue

/-- A freshly created (not yet started) unit. -/
def agentCreated : SubAgent := ⟨"C", "dom", profileOpen, .CREATED, [], []⟩

theorem receive_information_frame_witness :
    ((agentCreated.receive_information "s" "i" 0).1.local_state = agentCreated.local_state ∧
     ∃ e, (agentCreated.receive_information "s" "i" 0).1.activity_log =
       agentCreated.activity_log ++ [e]) ∧
    ((agentA.receive_information "alice" "hello" 0).1.local_state =
       insertAssoc agentA.local_state ("received_" ++ toString (0 : Int)) "hello" ∧
     ("received_" ++ toString (0 : Int), "hello") ∈
       (agentA.receive_information "alice" "hello" 0).1.local_state ∧
     ∃ e, (agentA.receive_information "alice" "hello" 0).1.activity_log =
       agentA.activity_log ++ [e]) :=
  ⟨(receive_information_frame agentCreated "s" "i" 0).1
     (by simp [SubAgent.receive_information, SubAgent.log_activity, agentCreated]),
   (receive_information_frame agentA "alice" "hello" 0).2
     (by simp [SubAgent.receive_information, SubAgent.log_activity, agentA, insertAssoc,
       TrustProfile.validate_inbound, validateLoop, profileOpen, brokerOne, brokerTwo,
       TrustProfile.has_independent_agreement, mean, List.countP, List.countP.go,
       TrustLevel.make, TrustLevel.meets_threshold, clamp01])⟩

/-! ## Domain classification -/

/-- A Coordinator with empty collections and empty log. -/
def flaPlain : FrontLineAgent := ⟨"F", profileOpen, [], [], []⟩

/-- C8 counterexample: `classify_domain` does NOT leave the Coordinator's
event log unchanged — on a state with an empty log, the call appends a
"Classifying domain" entry. -/
theorem classify_domain_counterexample :
    (flaPlain.classify_domain "hello").1.event_log ≠ flaPlain.event_log := by
  simp [FrontLineAgent.classify_domain, FrontLineAgent.log_event, flaPlain]

/-- C8 (amended): the label returned by `classify_domain` is a pure
function of the intent text (two states with the same intent get the same
label), and the call leaves id, default profile, active map and grants
unchanged, while the event log gains exactly one entry recording the
classification. -/
theorem classify_domain_pure (st st' : FrontLineAgent) (user_intent : String) :
    (st.classify_domain user_intent).2 = (st'.classify_domain user_intent).2 ∧
    (st.classify_domain user_intent).1.id = st.id ∧
    (st.classify_domain user_intent).1.default_trust_profile = st.default_trust_profile ∧
    (st.classify_domain user_intent).1.active_sub_agents = st.active_sub_agents ∧
    (st.classify_domain user_intent).1.communication_authorizations =
      st.communication_authorizations ∧
    (st.classify_domain user_intent).1.event_log =
      st.event_log ++ ["[FLA-" ++ st.id ++ "] " ++
        ("Classifying domain for intent: " ++ user_intent)] :=
  ⟨rfl, rfl, rfl, rfl, rfl, rfl⟩

end SubAgenticAI
